import Mathlib

/-!
Verification development for the type-derivation layer of the KECC C compiler
front end (`src/ir/dtype.rs`).  The Rust code is shallowly embedded: the
`Dtype` enum becomes an inductive type, fallible functions return an explicit
result type (`Res`) whose `err` constructor models `Result::Err(DtypeError)`,
whose `panic` constructor models a Rust `assert!`/`todo!`/`unwrap` abort with
its message, and whose `outOfFuel` constructor is used only by the mutually
recursive AST-driven conversion functions, which take an explicit fuel
parameter because their recursion is not structural on one argument.
-/

/-- The single reportable error kind of the core (`DtypeError` in `dtype.rs`):
a free-text message. -/
inductive DtypeError where
  | misc (message : String)
deriving DecidableEq

/-- Outcome of an embedded Rust computation: normal return, reported
`DtypeError`, process abort (`assert!` / `panic!` / `todo!` / `unwrap` on
`None`) carrying the abort message, or fuel exhaustion of the embedding. -/
inductive Res (α : Type) where
  | ok (a : α)
  | err (e : DtypeError)
  | panic (msg : String)
  | outOfFuel

/-- Sequencing of embedded computations: `?`-propagation in the Rust source.
Aborts and fuel exhaustion propagate the same way. -/
def Res.bind {α β : Type} : Res α → (α → Res β) → Res β
  | .ok a, f => f a
  | .err e, _ => .err e
  | .panic m, _ => .panic m
  | .outOfFuel, _ => .outOfFuel

def Res.map {α β : Type} (f : α → β) : Res α → Res β
  | .ok a => .ok (f a)
  | .err e => .err e
  | .panic m => .panic m
  | .outOfFuel => .outOfFuel

@[simp] theorem Res.ok_bind {α β : Type} (a : α) (f : α → Res β) :
    Res.bind (.ok a) f = f a := rfl

@[simp] theorem Res.err_bind {α β : Type} (e : DtypeError) (f : α → Res β) :
    Res.bind (.err e) f = .err e := rfl

@[simp] theorem Res.panic_bind {α β : Type} (m : String) (f : α → Res β) :
    Res.bind (.panic m) f = .panic m := rfl

@[simp] theorem Res.outOfFuel_bind {α β : Type} (f : α → Res β) :
    Res.bind .outOfFuel f = .outOfFuel := rfl

/-- Modelled from the spec: `Named<T>` (from `crate::ir`, not under `src/`)
"pairs an optional identifier with a value of type T"; the code uses
`Named::new`, `name()` and its `Deref` to the carried value. -/
structure Named (α : Type) where
  name : Option String
  inner : α

/-- The canonical type representation (`Dtype` enum in `dtype.rs`).
Constructor fields follow the Rust struct variants; `Box` indirection is
dropped. -/
inductive Dtype where
  | Unit (is_const : Bool)
  | Int (width : Nat) (is_signed : Bool) (is_const : Bool)
  | Float (width : Nat) (is_const : Bool)
  | Pointer (inner : Dtype) (is_const : Bool)
  | Array (inner : Dtype) (size : Nat)
  | Struct (name : Option String) (fields : List (Named Dtype)) (is_const : Bool)
  | Function (ret : Dtype) (params : List Dtype)
  | Typedef (name : String) (is_const : Bool)

def Dtype.BITS_OF_BYTE : Nat := 8
def Dtype.SIZE_OF_BYTE : Nat := 1
def Dtype.SIZE_OF_POINTER : Nat := 4
def Dtype.SIZE_OF_CHAR : Nat := 1
def Dtype.SIZE_OF_SHORT : Nat := 2
def Dtype.SIZE_OF_INT : Nat := 4
def Dtype.SIZE_OF_LONG : Nat := 8
def Dtype.SIZE_OF_LONGLONG : Nat := 8
def Dtype.SIZE_OF_FLOAT : Nat := 4
def Dtype.SIZE_OF_DOUBLE : Nat := 8

/-- `Dtype::unit()` -/
def Dtype.unit : Dtype := .Unit false

/-- `Dtype::int(width)` -/
def Dtype.int (width : Nat) : Dtype := .Int width true false

/-- `Dtype::float(width)` -/
def Dtype.float (width : Nat) : Dtype := .Float width false

/-- `Dtype::pointer(inner)` -/
def Dtype.pointer (inner : Dtype) : Dtype := .Pointer inner false

/-- `Dtype::structure(name, fields)`; renamed because `structure` is a Lean
keyword. -/
def Dtype.structure_ (name : Option String) (fields : List (Named Dtype)) : Dtype :=
  .Struct name fields false

/-- `Dtype::function(ret, params)` -/
def Dtype.function (ret : Dtype) (params : List Dtype) : Dtype := .Function ret params

/-- `Dtype::typedef(name)` -/
def Dtype.typedef (name : String) : Dtype := .Typedef name false

/-- `Dtype::BOOL` (signed option cannot be applied to boolean value) -/
def Dtype.BOOL : Dtype := .Int 1 false false
/-- `Dtype::CHAR` -/
def Dtype.CHAR : Dtype := Dtype.int (Dtype.SIZE_OF_CHAR * Dtype.BITS_OF_BYTE)
/-- `Dtype::SHORT` -/
def Dtype.SHORT : Dtype := Dtype.int (Dtype.SIZE_OF_SHORT * Dtype.BITS_OF_BYTE)
/-- `Dtype::INT` -/
def Dtype.INT : Dtype := Dtype.int (Dtype.SIZE_OF_INT * Dtype.BITS_OF_BYTE)
/-- `Dtype::LONG` -/
def Dtype.LONG : Dtype := Dtype.int (Dtype.SIZE_OF_LONG * Dtype.BITS_OF_BYTE)
/-- `Dtype::LONGLONG` -/
def Dtype.LONGLONG : Dtype := Dtype.int (Dtype.SIZE_OF_LONGLONG * Dtype.BITS_OF_BYTE)
/-- `Dtype::FLOAT` -/
def Dtype.FLOAT : Dtype := Dtype.float (Dtype.SIZE_OF_FLOAT * Dtype.BITS_OF_BYTE)
/-- `Dtype::DOUBLE` -/
def Dtype.DOUBLE : Dtype := Dtype.float (Dtype.SIZE_OF_DOUBLE * Dtype.BITS_OF_BYTE)

/-- `Dtype::get_int_width` -/
def Dtype.get_int_width : Dtype → Option Nat
  | .Int width _ _ => some width
  | _ => none

/-- `Dtype::get_array_inner` -/
def Dtype.get_array_inner : Dtype → Option Dtype
  | .Array inner _ => some inner
  | _ => none

/-- Whether the top-level constructor is `Array` (used to phrase claims). -/
def Dtype.isArrayVariant : Dtype → Bool
  | .Array _ _ => true
  | _ => false

/-- Whether the top-level constructor is `Function` (used to phrase claims). -/
def Dtype.isFunctionVariant : Dtype → Bool
  | .Function _ _ => true
  | _ => false

/-- `Dtype::array(base_dtype, size)`: insert a new array dimension innermost.
If the base is already an array, recursively insert beneath its inner type,
keeping the old outer size; applying a size to a function type panics. -/
def Dtype.array : Dtype → Nat → Res Dtype
  | .Array inner old_size, size =>
      (Dtype.array inner size).bind fun i => .ok (.Array i old_size)
  | .Function _ _, _ => .panic "array size cannot be applied to function type"
  | base, size => .ok (.Array base size)

/-- `Dtype::set_const` -/
def Dtype.set_const : Dtype → Bool → Dtype
  | .Unit _, is_const => .Unit is_const
  | .Int width is_signed _, is_const => .Int width is_signed is_const
  | .Float width _, is_const => .Float width is_const
  | .Pointer inner _, is_const => .Pointer inner is_const
  | .Array inner size, _ => .Array inner size
  | .Struct name fields _, is_const => .Struct name fields is_const
  | .Function ret params, _ => .Function ret params
  | .Typedef name _, is_const => .Typedef name is_const

/-- `Dtype::set_signed`; panics unless the dtype is an `Int`. -/
def Dtype.set_signed : Dtype → Bool → Res Dtype
  | .Int width _ is_const, is_signed => .ok (.Int width is_signed is_const)
  | _, _ => .panic "`signed` and `unsigned` only be applied to `Dtype::Int`"

mutual

/-- `Dtype::is_const`: structural constness.  `Array` and `Function` are
always const; a `Struct` is const when its own flag is set or some field is
const, where a field that is itself an array is tested by its element type;
querying a `Typedef` is a panic. -/
def Dtype.is_const : Dtype → Res Bool
  | .Unit is_const => .ok is_const
  | .Int _ _ is_const => .ok is_const
  | .Float _ is_const => .ok is_const
  | .Pointer _ is_const => .ok is_const
  | .Array _ _ => .ok true
  | .Struct _ fields is_const =>
      if is_const then .ok true else fieldsConstAny fields
  | .Function _ _ => .ok true
  | .Typedef _ _ => .panic "typedef should be replaced by real dtype"

/-- The `fields.iter().any(...)` scan inside `Dtype::is_const`, with Rust's
left-to-right short-circuiting: an array-typed field is tested by its inner
type, any other field by itself. -/
def fieldsConstAny : List (Named Dtype) → Res Bool
  | [] => .ok false
  | ⟨_, .Array inner _⟩ :: rest =>
      match Dtype.is_const inner with
      | .ok true => .ok true
      | .ok false => fieldsConstAny rest
      | r => r
  | ⟨_, d⟩ :: rest =>
      match Dtype.is_const d with
      | .ok true => .ok true
      | .ok false => fieldsConstAny rest
      | r => r

end

/-- `Dtype::size_align_of`: `(size, align)` in bytes; `Struct` is `todo!` and
`Typedef` is a panic in the source. -/
def Dtype.size_align_of : Dtype → Res (Nat × Nat)
  | .Unit _ => .ok (0, 1)
  | .Int width _ _ =>
      let size_of := (width + Dtype.BITS_OF_BYTE - 1) / Dtype.BITS_OF_BYTE
      .ok (size_of, size_of)
  | .Float width _ =>
      let size_of := (width + Dtype.BITS_OF_BYTE - 1) / Dtype.BITS_OF_BYTE
      .ok (size_of, size_of)
  | .Pointer _ _ => .ok (Dtype.SIZE_OF_POINTER, Dtype.SIZE_OF_POINTER)
  | .Array inner size =>
      (inner.size_align_of).bind fun sa =>
        .ok (size * max sa.1 sa.2, sa.2)
  | .Struct _ _ _ => .panic "not yet implemented"
  | .Function _ _ => .ok (0, 1)
  | .Typedef _ _ => .panic "typedef should be replaced by real dtype"

mutual

/-- A `Dtype` tree containing no `Typedef` variant anywhere. -/
def Dtype.typedef_free : Dtype → Bool
  | .Unit _ => true
  | .Int _ _ _ => true
  | .Float _ _ => true
  | .Pointer inner _ => Dtype.typedef_free inner
  | .Array inner _ => Dtype.typedef_free inner
  | .Struct _ fields _ => fieldsTypedefFree fields
  | .Function ret params => Dtype.typedef_free ret && paramsTypedefFree params
  | .Typedef _ _ => false

def fieldsTypedefFree : List (Named Dtype) → Bool
  | [] => true
  | f :: rest => Dtype.typedef_free f.inner && fieldsTypedefFree rest

def paramsTypedefFree : List Dtype → Bool
  | [] => true
  | p :: rest => Dtype.typedef_free p && paramsTypedefFree rest

end

mutual

/-- `Dtype::resolve_typedefs`: rewrite every `Typedef` leaf using the
name-to-dtype environment (a `HashMap` in the source, modelled as an
association list queried with `List.lookup`).  A missing name is an error;
a found dtype is returned with its own constness OR-ed with the wrapper's. -/
def Dtype.resolve_typedefs : Dtype → List (String × Dtype) → Res Dtype
  | .Unit is_const, _ => .ok (.Unit is_const)
  | .Int width is_signed is_const, _ => .ok (.Int width is_signed is_const)
  | .Float width is_const, _ => .ok (.Float width is_const)
  | .Pointer inner is_const, typedefs =>
      (Dtype.resolve_typedefs inner typedefs).bind fun i =>
        .ok ((Dtype.pointer i).set_const is_const)
  | .Array inner size, typedefs =>
      (Dtype.resolve_typedefs inner typedefs).bind fun i =>
        .ok (.Array i size)
  | .Struct name fields is_const, typedefs =>
      (resolveFields fields typedefs).bind fun resolved_dtypes =>
        if fields.length = resolved_dtypes.length then
          .ok ((Dtype.structure_ name
                 (List.zipWith (fun f d => Named.mk f.name d) fields resolved_dtypes)).set_const
               is_const)
        else .panic "assertion failed: fields.len() == resolved_dtypes.len()"
  | .Function ret params, typedefs =>
      (Dtype.resolve_typedefs ret typedefs).bind fun r =>
        (resolveParams params typedefs).bind fun ps =>
          .ok (Dtype.function r ps)
  | .Typedef name is_const, typedefs =>
      match typedefs.lookup name with
      | none => .err (.misc ("unknown type name `" ++ name ++ "`"))
      | some dtype =>
          (dtype.is_const).bind fun b =>
            .ok (dtype.set_const (b || is_const))

/-- The field-by-field resolution inside the `Struct` arm of
`Dtype::resolve_typedefs` (the `resolved_dtypes` vector). -/
def resolveFields : List (Named Dtype) → List (String × Dtype) → Res (List Dtype)
  | [], _ => .ok []
  | f :: rest, typedefs =>
      (Dtype.resolve_typedefs f.inner typedefs).bind fun d =>
        (resolveFields rest typedefs).bind fun ds =>
          .ok (d :: ds)

/-- The parameter-by-parameter resolution inside the `Function` arm of
`Dtype::resolve_typedefs`. -/
def resolveParams : List Dtype → List (String × Dtype) → Res (List Dtype)
  | [], _ => .ok []
  | p :: rest, typedefs =>
      (Dtype.resolve_typedefs p typedefs).bind fun d =>
        (resolveParams rest typedefs).bind fun ds =>
          .ok (d :: ds)

end

/-! ### The consumed syntax-tree fragments (`lang_c::ast`)

Only the fields and variants read by `dtype.rs` are modelled; `Node<T>` span
wrappers are dropped (the code always goes through `.node`).  Variants the
code dismisses with a wildcard panic are collapsed into one `Unsupported`
constructor per type. -/

namespace ast

/-- `ast::StructKind` -/
inductive StructKind where
  | Struct
  | Union
deriving DecidableEq

/-- `ast::TypeQualifier`; only `Const` is supported by the code. -/
inductive TypeQualifier where
  | Const
  | Unsupported
deriving DecidableEq

/-- `ast::StorageClassSpecifier`; only `Typedef` is supported by the code. -/
inductive StorageClassSpecifier where
  | Typedef
  | Unsupported
deriving DecidableEq

/-- `ast::PointerQualifier` -/
inductive PointerQualifier where
  | TypeQualifier (tq : TypeQualifier)
  | Extension
deriving DecidableEq

/-- Modelled from the spec: the external integer-constant-expression
evaluator (`Constant::try_from` and `Constant::get_int` from `crate::ir`,
which is not under `src/`).  An array-bound expression is represented by the
evaluator's verdict on it: an integer constant with its value, width and
signedness; a constant that is not an integer (so `get_int` returns `None`);
or a non-constant expression (so `Constant::try_from` fails and the `expect`
in `with_ast_array_size` panics). -/
inductive Expression where
  | intConst (value : Int) (width : Nat) (is_signed : Bool)
  | nonIntConst
  | nonConst
deriving DecidableEq

/-- `ast::ArraySize` -/
inductive ArraySize where
  | Unknown
  | VariableUnknown
  | VariableExpression (expr : Expression)
  | StaticExpression (expr : Expression)
deriving DecidableEq

mutual

/-- `ast::TypeSpecifier` (the variants `dtype.rs` inspects). -/
inductive TypeSpecifier where
  | Void
  | Bool
  | Char
  | Int
  | Float
  | Double
  | Short
  | Long
  | Signed
  | Unsigned
  | TypedefName (identifier : String)
  | Struct (struct_type : StructType)
  | Unsupported

/-- `ast::StructType` -/
inductive StructType where
  | mk (kind : StructKind) (identifier : Option String)
       (declarations : Option (List StructDeclaration))

/-- `ast::StructDeclaration` -/
inductive StructDeclaration where
  | Field (field : StructField)
  | StaticAssert

/-- `ast::StructField` -/
inductive StructField where
  | mk (specifiers : List SpecifierQualifier) (declarators : List StructDeclarator)

/-- `ast::StructDeclarator` (the `bit_width` field is never read). -/
inductive StructDeclarator where
  | mk (declarator : Option Declarator)

/-- `ast::SpecifierQualifier` -/
inductive SpecifierQualifier where
  | TypeSpecifier (ts : TypeSpecifier)
  | TypeQualifier (tq : TypeQualifier)

/-- `ast::DeclarationSpecifier`; variants other than the three the code
handles collapse to `Unsupported`. -/
inductive DeclarationSpecifier where
  | StorageClass (sc : StorageClassSpecifier)
  | TypeSpecifier (ts : TypeSpecifier)
  | TypeQualifier (tq : TypeQualifier)
  | Unsupported

/-- `ast::Declarator` (the `extensions` field is never read). -/
inductive Declarator where
  | mk (kind : DeclaratorKind) (derived : List DerivedDeclarator)

/-- `ast::DeclaratorKind` -/
inductive DeclaratorKind where
  | Abstract
  | Identifier (name : String)
  | Declarator (declarator : Declarator)

/-- `ast::DerivedDeclarator` -/
inductive DerivedDeclarator where
  | Pointer (pointer_qualifiers : List PointerQualifier)
  | Array (array_decl : ArrayDeclarator)
  | Function (func_decl : FunctionDeclarator)
  | KRFunction (kr_func_decl : List String)

/-- `ast::ArrayDeclarator` -/
inductive ArrayDeclarator where
  | mk (qualifiers : List TypeQualifier) (size : ArraySize)

/-- `ast::FunctionDeclarator` (the `ellipsis` field is never read). -/
inductive FunctionDeclarator where
  | mk (parameters : List ParameterDeclaration)

/-- `ast::ParameterDeclaration` (the `extensions` field is never read). -/
inductive ParameterDeclaration where
  | mk (specifiers : List DeclarationSpecifier) (declarator : Option Declarator)

end

def StructType.kind : StructType → StructKind
  | .mk k _ _ => k

def StructType.identifier : StructType → Option String
  | .mk _ i _ => i

def StructType.declarations : StructType → Option (List StructDeclaration)
  | .mk _ _ d => d

def StructField.specifiers : StructField → List SpecifierQualifier
  | .mk s _ => s

def StructField.declarators : StructField → List StructDeclarator
  | .mk _ d => d

def StructDeclarator.declarator : StructDeclarator → Option Declarator
  | .mk d => d

def Declarator.kind : Declarator → DeclaratorKind
  | .mk k _ => k

def Declarator.derived : Declarator → List DerivedDeclarator
  | .mk _ d => d

def ArrayDeclarator.qualifiers : ArrayDeclarator → List TypeQualifier
  | .mk q _ => q

def ArrayDeclarator.size : ArrayDeclarator → ArraySize
  | .mk _ s => s

def FunctionDeclarator.parameters : FunctionDeclarator → List ParameterDeclaration
  | .mk p => p

def ParameterDeclaration.specifiers : ParameterDeclaration → List DeclarationSpecifier
  | .mk s _ => s

def ParameterDeclaration.declarator : ParameterDeclaration → Option Declarator
  | .mk _ d => d

end ast

/-! ### The `BaseDtype` accumulator and its `apply_*` operations -/

/-- The transient specifier accumulator (`BaseDtype` struct in `dtype.rs`). -/
structure BaseDtype where
  scalar : Option ast.TypeSpecifier
  size_modifiers : List ast.TypeSpecifier
  signed_option : Option ast.TypeSpecifier
  typedef_name : Option String
  struct_type : Option ast.StructType
  is_const : Bool
  is_typedef : Bool

/-- `BaseDtype::default()` -/
def BaseDtype.default : BaseDtype :=
  ⟨none, [], none, none, none, false, false⟩

/-- The emptiness condition of the `assert!` at the top of
`TryFrom<BaseDtype>`: no scalar, no size modifiers, no signedness, no
typedef name, no struct specifier and no const flag. -/
def BaseDtype.isEmpty (spec : BaseDtype) : Bool :=
  spec.scalar.isNone && spec.size_modifiers.isEmpty && spec.signed_option.isNone &&
    spec.typedef_name.isNone && spec.struct_type.isNone && !spec.is_const

/-- `BaseDtype::apply_storage_class` -/
def BaseDtype.apply_storage_class (spec : BaseDtype)
    (storage_class : ast.StorageClassSpecifier) : Res BaseDtype :=
  match storage_class with
  | .Typedef => .ok { spec with is_typedef := true }
  | .Unsupported => .panic "unsupported storage class"

/-- `BaseDtype::apply_type_specifier` -/
def BaseDtype.apply_type_specifier (spec : BaseDtype)
    (type_specifier : ast.TypeSpecifier) : Res BaseDtype :=
  match type_specifier with
  | .Unsigned | .Signed =>
      if spec.signed_option.isSome then
        .err (.misc "duplicate signed option")
      else .ok { spec with signed_option := some type_specifier }
  | .Void | .Bool | .Char | .Int | .Float | .Double =>
      if spec.scalar.isSome then
        .err (.misc "two or more scalar types in declaration specifiers")
      else .ok { spec with scalar := some type_specifier }
  | .Short | .Long =>
      .ok { spec with size_modifiers := spec.size_modifiers ++ [type_specifier] }
  | .TypedefName identifier =>
      if spec.typedef_name.isSome then
        .err (.misc "two or more typedef names in declaration specifiers")
      else .ok { spec with typedef_name := some identifier }
  | .Struct struct_type =>
      if spec.struct_type.isSome then
        .err (.misc "two or more struct type in declaration specifiers")
      else .ok { spec with struct_type := some struct_type }
  | .Unsupported => .panic "apply_type_specifier: unsupported type specifier"

/-- `BaseDtype::apply_type_qualifier` -/
def BaseDtype.apply_type_qualifier (spec : BaseDtype)
    (type_qualifier : ast.TypeQualifier) : Res BaseDtype :=
  match type_qualifier with
  | .Const => .ok { spec with is_const := true }
  | .Unsupported => .panic "type qualifier is unsupported except `const`"

/-- `BaseDtype::apply_specifier_qualifier` -/
def BaseDtype.apply_specifier_qualifier (spec : BaseDtype)
    (typename_specifier : ast.SpecifierQualifier) : Res BaseDtype :=
  match typename_specifier with
  | .TypeSpecifier ts => spec.apply_type_specifier ts
  | .TypeQualifier tq => spec.apply_type_qualifier tq

/-- `BaseDtype::apply_declaration_specifier` -/
def BaseDtype.apply_declaration_specifier (spec : BaseDtype)
    (declaration_specifier : ast.DeclarationSpecifier) : Res BaseDtype :=
  match declaration_specifier with
  | .StorageClass sc => spec.apply_storage_class sc
  | .TypeSpecifier ts => spec.apply_type_specifier ts
  | .TypeQualifier tq => spec.apply_type_qualifier tq
  | .Unsupported => .panic "is_unsupported"

/-- `BaseDtype::apply_pointer_qualifier` -/
def BaseDtype.apply_pointer_qualifier (spec : BaseDtype)
    (pointer_qualifier : ast.PointerQualifier) : Res BaseDtype :=
  match pointer_qualifier with
  | .TypeQualifier tq => spec.apply_type_qualifier tq
  | .Extension => .panic "ast::PointerQualifier::Extension is unsupported"

/-- `BaseDtype::apply_specifier_qualifiers` (in-order fold, first error
wins). -/
def BaseDtype.apply_specifier_qualifiers (spec : BaseDtype) :
    List ast.SpecifierQualifier → Res BaseDtype
  | [] => .ok spec
  | sq :: rest =>
      (spec.apply_specifier_qualifier sq).bind fun s =>
        s.apply_specifier_qualifiers rest

/-- `BaseDtype::apply_declaration_specifiers` (in-order fold, first error
wins). -/
def BaseDtype.apply_declaration_specifiers (spec : BaseDtype) :
    List ast.DeclarationSpecifier → Res BaseDtype
  | [] => .ok spec
  | ds :: rest =>
      (spec.apply_declaration_specifier ds).bind fun s =>
        s.apply_declaration_specifiers rest

/-- The pointer-qualifier accumulation loop inside the `Pointer` arm of
`with_ast_declarator`. -/
def BaseDtype.apply_pointer_qualifiers (spec : BaseDtype) :
    List ast.PointerQualifier → Res BaseDtype
  | [] => .ok spec
  | pq :: rest =>
      (spec.apply_pointer_qualifier pq).bind fun s =>
        s.apply_pointer_qualifiers rest

/-! ### Dtype construction from a finished accumulator and from declarators -/

/-- The scalar-keyword step of `TryFrom<BaseDtype>`: `void/bool/char/int/
float/double` map to their dtype; any other specifier stored in the scalar
slot is a panic. -/
def scalar_dtype (t : ast.TypeSpecifier) : Res Dtype :=
  match t with
  | .Void => .ok Dtype.unit
  | .Bool => .ok Dtype.BOOL
  | .Char => .ok Dtype.CHAR
  | .Int => .ok Dtype.INT
  | .Float => .ok Dtype.FLOAT
  | .Double => .ok Dtype.DOUBLE
  | _ => .panic "Dtype::try_from::<BaseDtype>: not a scalar type"

/-- The size-modifier step of `TryFrom<BaseDtype>` (the `match` on
`number_of_modifier`): zero modifiers keep the dtype; one modifier replaces
it with `SHORT`/`LONG` (panic on a non-modifier); two modifiers must both be
`Long` and yield `LONGLONG`; three or more are an error. -/
def apply_size_modifiers (dtype : Dtype) (size_modifiers : List ast.TypeSpecifier) :
    Res Dtype :=
  match size_modifiers with
  | [] => .ok dtype
  | [m] =>
      match m with
      | .Short => .ok Dtype.SHORT
      | .Long => .ok Dtype.LONG
      | _ => .panic "Dtype::try_from::<BaseDtype>: not a size modifier"
  | [m1, m2] =>
      match m1, m2 with
      | .Long, .Long => .ok Dtype.LONGLONG
      | _, _ => .err (.misc "two or more size modifiers in declaration specifiers")
  | _ => .err (.misc "two or more size modifiers in declaration specifiers")

/-- The signedness step of `TryFrom<BaseDtype>`: `signed`/`unsigned` may only
be applied to an `Int` (error otherwise); a non-signedness specifier stored
in the slot is a panic. -/
def apply_signedness (dtype : Dtype) (signed_option : Option ast.TypeSpecifier) :
    Res Dtype :=
  match signed_option with
  | none => .ok dtype
  | some so =>
      (match so with
        | .Signed => Res.ok true
        | .Unsigned => Res.ok false
        | _ => Res.panic "Dtype::try_from::<BaseDtype>: not a signed option").bind
        fun is_signed =>
          match dtype.get_int_width with
          | none => .err (.misc "`signed` and `unsigned` only be applied to `Dtype::Int`")
          | some _ => dtype.set_signed is_signed

/-- `Dtype::with_ast_array_size`: only `ArraySize::VariableExpression` is
supported; the bound goes through the (spec-modelled) constant evaluator,
a non-integer constant is an error, a signed negative value is an error, and
the resulting count is handed to `Dtype::array`. -/
def Dtype.with_ast_array_size (self : Dtype) (array_size : ast.ArraySize) : Res Dtype :=
  match array_size with
  | .VariableExpression expr =>
      match expr with
      | .nonConst =>
          .panic "expression of `ArraySize::VariableExpression` must be constant value"
      | .nonIntConst => .err (.misc "expression is not an integer constant expression")
      | .intConst value _ is_signed =>
          if is_signed && value < 0 then
            .err (.misc "declared as an array with a negative size")
          else Dtype.array self value.toNat
  | _ => .panic "`ArraySize` is unsupported except `ArraySize::VariableExpression`"

/-- The duplicate-field-name scan of the `Struct` arm of `TryFrom<BaseDtype>`
(a `HashSet` insert loop in the source): returns the first repeated name. -/
def find_dup : List (Named Dtype) → List String → Option String
  | [], _ => none
  | f :: rest, seen =>
      match f.name with
      | some name =>
          if seen.contains name then some name else find_dup rest (name :: seen)
      | none => find_dup rest seen

/-- The lone-`void`-parameter removal in the `Function` arm of
`with_ast_declarator`: a parameter list that is exactly `[Dtype::unit()]`
becomes empty; every other list is kept as is. -/
def dropLoneVoid (params : List Dtype) : List Dtype :=
  match params with
  | [.Unit false] => []
  | ps => ps

mutual

/-- `TryFrom<BaseDtype> for Dtype`: empty accumulator asserts; a typedef
name or a struct specifier is exclusive with everything but `const`;
otherwise scalar keyword (default `INT`), then size modifiers, then
signedness, then the `const` flag.  The fuel only limits the recursion into
struct declarations. -/
def Dtype.try_from_base : Nat → BaseDtype → Res Dtype
  | 0, _ => .outOfFuel
  | fuel + 1, spec =>
      if spec.isEmpty then .panic "BaseDtype is empty"
      else
        match spec.typedef_name with
        | some name =>
            if spec.scalar.isNone && spec.size_modifiers.isEmpty &&
                spec.signed_option.isNone && spec.struct_type.isNone then
              .ok ((Dtype.typedef name).set_const spec.is_const)
            else .err (.misc "`typedef` can only be used with `const`")
        | none =>
            match spec.struct_type with
            | some struct_type =>
                if spec.scalar.isNone && spec.size_modifiers.isEmpty &&
                    spec.signed_option.isNone && spec.typedef_name.isNone then
                  struct_dtype fuel struct_type spec.is_const
                else .err (.misc "`struct` can only be used with `const`")
            | none =>
                (match spec.scalar with
                  | some t => scalar_dtype t
                  | none => Res.ok Dtype.INT).bind fun dtype =>
                  (apply_size_modifiers dtype spec.size_modifiers).bind fun dtype =>
                    (apply_signedness dtype spec.signed_option).bind fun dtype =>
                      Res.ok (dtype.set_const spec.is_const)

/-- The `Struct` arm of `TryFrom<BaseDtype>`: the kind must be `struct`
(union asserts), fields come from the declaration list (concatenated),
duplicate field names are an error. -/
def struct_dtype : Nat → ast.StructType → Bool → Res Dtype
  | 0, _, _ => .outOfFuel
  | fuel + 1, struct_type, is_const =>
      match struct_type.kind with
      | .Union => .panic "assertion failed: struct_type.kind == StructKind::Struct"
      | .Struct =>
          (match struct_type.declarations with
            | some declarations =>
                (map_struct_decls fuel declarations).bind fun fss => Res.ok fss.flatten
            | none => Res.ok []).bind fun fields =>
            match find_dup fields [] with
            | some name => .err (.misc ("`" ++ name ++ "` is arleady used in struct"))
            | none =>
                .ok ((Dtype.structure_ struct_type.identifier fields).set_const is_const)

/-- The declaration-by-declaration map inside the `Struct` arm (collected
then concatenated in the source). -/
def map_struct_decls : Nat → List ast.StructDeclaration → Res (List (List (Named Dtype)))
  | 0, _ => .outOfFuel
  | _ + 1, [] => .ok []
  | fuel + 1, d :: rest =>
      (Dtype.try_from_ast_struct_declaration fuel d).bind fun fs =>
        (map_struct_decls fuel rest).bind fun fss =>
          .ok (fs :: fss)

/-- `Dtype::try_from_ast_struct_declaration`: one shared accumulator for the
field's specifier-qualifier list, one base dtype, one named field per
declarator; no declarators at all yield a single anonymous field. -/
def Dtype.try_from_ast_struct_declaration :
    Nat → ast.StructDeclaration → Res (List (Named Dtype))
  | 0, _ => .outOfFuel
  | _ + 1, .StaticAssert => .panic "ast::StructDeclaration::StaticAssert is unsupported"
  | fuel + 1, .Field field_decl =>
      (BaseDtype.default.apply_specifier_qualifiers field_decl.specifiers).bind fun spec =>
        (Dtype.try_from_base fuel spec).bind fun dtype =>
          (map_struct_declarators fuel dtype field_decl.declarators).bind fun fields =>
            if fields.isEmpty then .ok [Named.mk none dtype] else .ok fields

/-- The declarator-by-declarator map inside
`try_from_ast_struct_declaration`; a missing declarator is the source's
`unwrap` on `None`. -/
def map_struct_declarators :
    Nat → Dtype → List ast.StructDeclarator → Res (List (Named Dtype))
  | 0, _, _ => .outOfFuel
  | _ + 1, _, [] => .ok []
  | fuel + 1, dtype, sd :: rest =>
      (match sd.declarator with
        | some decl => Dtype.with_ast_declarator fuel dtype decl
        | none => Res.panic "called `Option::unwrap()` on a `None` value").bind fun f =>
        (map_struct_declarators fuel dtype rest).bind fun fs =>
          .ok (f :: fs)

/-- `Dtype::with_ast_declarator`: fold the derived-declarator chain over the
current dtype, then resolve the declarator core (abstract / identifier /
parenthesized recursion). -/
def Dtype.with_ast_declarator : Nat → Dtype → ast.Declarator → Res (Named Dtype)
  | 0, _, _ => .outOfFuel
  | fuel + 1, self, declarator =>
      (with_ast_derived fuel self declarator.derived).bind fun self =>
        match declarator.kind with
        | .Abstract => .ok (Named.mk none self)
        | .Identifier name => .ok (Named.mk (some name) self)
        | .Declarator d => Dtype.with_ast_declarator fuel self d

/-- The `for derived_decl in &declarator.derived` loop of
`with_ast_declarator`: pointer, array, function and K&R layers. -/
def with_ast_derived : Nat → Dtype → List ast.DerivedDeclarator → Res Dtype
  | 0, _, _ => .outOfFuel
  | _ + 1, self, [] => .ok self
  | fuel + 1, self, .Pointer pointer_qualifiers :: rest =>
      (BaseDtype.default.apply_pointer_qualifiers pointer_qualifiers).bind fun specifier =>
        with_ast_derived fuel ((Dtype.pointer self).set_const specifier.is_const) rest
  | fuel + 1, self, .Array array_decl :: rest =>
      if array_decl.qualifiers.isEmpty then
        (self.with_ast_array_size array_decl.size).bind fun s =>
          with_ast_derived fuel s rest
      else .panic "assertion failed: array_decl.node.qualifiers.is_empty()"
  | fuel + 1, self, .Function func_decl :: rest =>
      (params_dtypes fuel func_decl.parameters).bind fun params =>
        with_ast_derived fuel (Dtype.function self (dropLoneVoid params)) rest
  | fuel + 1, self, .KRFunction kr_func_decl :: rest =>
      if kr_func_decl.isEmpty then
        with_ast_derived fuel (Dtype.function self []) rest
      else .panic "assertion failed: kr_func_decl.is_empty()"

/-- The parameter-by-parameter map inside the `Function` arm of
`with_ast_declarator`. -/
def params_dtypes : Nat → List ast.ParameterDeclaration → Res (List Dtype)
  | 0, _ => .outOfFuel
  | _ + 1, [] => .ok []
  | fuel + 1, p :: rest =>
      (Dtype.try_from_param fuel p).bind fun d =>
        (params_dtypes fuel rest).bind fun ds =>
          .ok (d :: ds)

/-- `TryFrom<&ast::ParameterDeclaration> for Dtype`: specifiers, then the
declarator if present, then array-to-pointer parameter decay. -/
def Dtype.try_from_param : Nat → ast.ParameterDeclaration → Res Dtype
  | 0, _ => .outOfFuel
  | fuel + 1, parameter_decl =>
      (BaseDtype.default.apply_declaration_specifiers parameter_decl.specifiers).bind
        fun spec =>
          (Dtype.try_from_base fuel spec).bind fun dtype =>
            match parameter_decl.declarator with
            | none => .ok dtype
            | some declarator =>
                (Dtype.with_ast_declarator fuel dtype declarator).bind fun nd =>
                  match nd.inner.get_array_inner with
                  | some inner => .ok (Dtype.pointer inner)
                  | none => .ok nd.inner

end

/-! ### Proof infrastructure -/

@[simp] theorem Res.map_ok {α β : Type} (f : α → β) (a : α) :
    Res.map f (.ok a) = .ok (f a) := rfl

theorem Res.bind_eq_ok {α β : Type} {r : Res α} {f : α → Res β} {b : β}
    (h : r.bind f = .ok b) : ∃ a, r = .ok a ∧ f a = .ok b := by
  cases r with
  | ok a => exact ⟨a, rfl, h⟩
  | err e => simp [Res.bind] at h
  | panic m => simp [Res.bind] at h
  | outOfFuel => simp [Res.bind] at h

theorem Res.bind_ne_panic {α β : Type} {r : Res α} {f : α → Res β} {m : String}
    (h1 : r ≠ .panic m) (h2 : ∀ a, f a ≠ .panic m) : r.bind f ≠ .panic m := by
  cases r <;> simp_all [Res.bind]

/-- Nested induction principle for `Dtype` (recursion goes through the field
list of `Struct` and the parameter list of `Function`). -/
theorem Dtype.nestedInd (P : Dtype → Prop)
    (h1 : ∀ c, P (.Unit c))
    (h2 : ∀ w s c, P (.Int w s c))
    (h3 : ∀ w c, P (.Float w c))
    (h4 : ∀ i c, P i → P (.Pointer i c))
    (h5 : ∀ i s, P i → P (.Array i s))
    (h6 : ∀ n fs c, (∀ f, f ∈ fs → P (Named.inner f)) → P (.Struct n fs c))
    (h7 : ∀ r ps, P r → (∀ p, p ∈ ps → P p) → P (.Function r ps))
    (h8 : ∀ n c, P (.Typedef n c)) :
    ∀ d, P d
  | .Unit c => h1 c
  | .Int w s c => h2 w s c
  | .Float w c => h3 w c
  | .Pointer i c => h4 i c (Dtype.nestedInd P h1 h2 h3 h4 h5 h6 h7 h8 i)
  | .Array i s => h5 i s (Dtype.nestedInd P h1 h2 h3 h4 h5 h6 h7 h8 i)
  | .Struct n fs c =>
      h6 n fs c (fun f hf =>
        have hmem : sizeOf f < sizeOf fs := List.sizeOf_lt_of_mem hf
        have hinner : sizeOf f.inner < sizeOf f := by
          cases f with
          | mk nm d => simp
        Dtype.nestedInd P h1 h2 h3 h4 h5 h6 h7 h8 f.inner)
  | .Function r ps =>
      h7 r ps (Dtype.nestedInd P h1 h2 h3 h4 h5 h6 h7 h8 r)
        (fun p hp =>
          have hmem : sizeOf p < sizeOf ps := List.sizeOf_lt_of_mem hp
          Dtype.nestedInd P h1 h2 h3 h4 h5 h6 h7 h8 p)
  | .Typedef n c => h8 n c
termination_by d => sizeOf d
decreasing_by all_goals (simp_wf; omega)

theorem fieldsTypedefFree_mem {fs : List (Named Dtype)} {f : Named Dtype}
    (h : fieldsTypedefFree fs = true) (hf : f ∈ fs) : f.inner.typedef_free = true := by
  induction fs with
  | nil => cases hf
  | cons g rest ih =>
      simp only [fieldsTypedefFree, Bool.and_eq_true] at h
      rcases List.mem_cons.mp hf with h1 | h1
      · subst h1; exact h.1
      · exact ih h.2 h1

theorem paramsTypedefFree_mem {ps : List Dtype} {p : Dtype}
    (h : paramsTypedefFree ps = true) (hp : p ∈ ps) : p.typedef_free = true := by
  induction ps with
  | nil => cases hp
  | cons q rest ih =>
      simp only [paramsTypedefFree, Bool.and_eq_true] at h
      rcases List.mem_cons.mp hp with h1 | h1
      · subst h1; exact h.1
      · exact ih h.2 h1

/-- `set_const` only rewrites a constness flag, so it preserves
typedef-freeness. -/
theorem typedef_free_set_const (d : Dtype) (b : Bool) :
    (d.set_const b).typedef_free = d.typedef_free := by
  cases d <;> simp [Dtype.set_const, Dtype.typedef_free]

mutual

/-- Spec-side constness predicate, written from the words of claim C2:
the stored flag for `Unit`/`Int`/`Float`/`Pointer`, `true` for every `Array`
and `Function`, and for a struct its own flag OR-ed with the per-field test
in which an array field is tested by its element type.  (The `Typedef` arm
is outside the claim's typedef-free domain; it reads the stored flag.) -/
def isConstSpec : Dtype → Bool
  | .Unit c => c
  | .Int _ _ c => c
  | .Float _ c => c
  | .Pointer _ c => c
  | .Array _ _ => true
  | .Struct _ fields c => c || fieldsAnySpec fields
  | .Function _ _ => true
  | .Typedef _ c => c

/-- Spec-side "some field is const" test of claim C2. -/
def fieldsAnySpec : List (Named Dtype) → Bool
  | [] => false
  | ⟨_, .Array inner _⟩ :: rest => isConstSpec inner || fieldsAnySpec rest
  | ⟨_, d⟩ :: rest => isConstSpec d || fieldsAnySpec rest

end

theorem fieldsConstAny_eq_spec {fs : List (Named Dtype)}
    (h : ∀ f, f ∈ fs →
      (f.inner.is_const = .ok (isConstSpec f.inner) ∧
        ∀ i s, f.inner = .Array i s → i.is_const = .ok (isConstSpec i))) :
    fieldsConstAny fs = .ok (fieldsAnySpec fs) := by
  induction fs with
  | nil => rfl
  | cons f rest ih =>
      have hf := h f (List.mem_cons_self f rest)
      have hrest : fieldsConstAny rest = .ok (fieldsAnySpec rest) :=
        ih (fun g hg => h g (List.mem_cons_of_mem f hg))
      cases f with
      | mk nm d =>
          cases d with
          | Array i s =>
              have hi : i.is_const = .ok (isConstSpec i) := hf.2 i s rfl
              cases hb : isConstSpec i <;>
                simp_all [fieldsConstAny, fieldsAnySpec]
          | Unit c =>
              cases hb : isConstSpec (Dtype.Unit c) <;>
                simp_all [fieldsConstAny, fieldsAnySpec]
          | Int w sg c =>
              cases hb : isConstSpec (Dtype.Int w sg c) <;>
                simp_all [fieldsConstAny, fieldsAnySpec]
          | Float w c =>
              cases hb : isConstSpec (Dtype.Float w c) <;>
                simp_all [fieldsConstAny, fieldsAnySpec]
          | Pointer i c =>
              cases hb : isConstSpec (Dtype.Pointer i c) <;>
                simp_all [fieldsConstAny, fieldsAnySpec]
          | Struct n2 fs2 c =>
              cases hb : isConstSpec (Dtype.Struct n2 fs2 c) <;>
                simp_all [fieldsConstAny, fieldsAnySpec]
          | Function r ps =>
              cases hb : isConstSpec (Dtype.Function r ps) <;>
                simp_all [fieldsConstAny, fieldsAnySpec]
          | Typedef n2 c =>
              cases hb : isConstSpec (Dtype.Typedef n2 c) <;>
                simp_all [fieldsConstAny, fieldsAnySpec]

/-- On typedef-free dtypes, `Dtype::is_const` computes exactly the spec-side
constness predicate of claim C2. -/
theorem is_const_eq_spec :
    ∀ d : Dtype, d.typedef_free = true →
      (d.is_const = .ok (isConstSpec d) ∧
        ∀ i s, d = .Array i s → i.is_const = .ok (isConstSpec i)) := by
  intro d
  induction d using Dtype.nestedInd with
  | h1 c => intro _; exact ⟨rfl, by intro i s h; cases h⟩
  | h2 w s c => intro _; exact ⟨rfl, by intro i s h; cases h⟩
  | h3 w c => intro _; exact ⟨rfl, by intro i s h; cases h⟩
  | h4 i c ih => intro _; exact ⟨rfl, by intro i2 s2 h; cases h⟩
  | h5 i s ih =>
      intro h
      simp only [Dtype.typedef_free] at h
      refine ⟨rfl, ?_⟩
      intro i2 s2 heq
      cases heq
      exact (ih h).1
  | h6 n fs c ih =>
      intro h
      simp only [Dtype.typedef_free] at h
      constructor
      · have hany : fieldsConstAny fs = .ok (fieldsAnySpec fs) := by
          apply fieldsConstAny_eq_spec
          intro f hf
          exact ih f hf (fieldsTypedefFree_mem h hf)
        cases c <;> simp [Dtype.is_const, isConstSpec, hany]
      · intro i s heq; cases heq
  | h7 r ps ihr ihp => intro _; exact ⟨rfl, by intro i s h; cases h⟩
  | h8 n c => intro h; simp [Dtype.typedef_free] at h

/-- If a dtype's constness is `b`, then after `set_const (b || c)` the
constness is exactly `b || c` (needed for claim C3: the `Typedef` arm of
`resolve_typedefs` sets the OR of the wrapper's and the target's
constness). -/
theorem set_const_or_is_const (D : Dtype) (b c : Bool) (h : D.is_const = .ok b) :
    (D.set_const (b || c)).is_const = .ok (b || c) := by
  cases D with
  | Unit x => simp [Dtype.is_const] at h; subst h; simp [Dtype.set_const, Dtype.is_const]
  | Int w s x => simp [Dtype.is_const] at h; subst h; simp [Dtype.set_const, Dtype.is_const]
  | Float w x => simp [Dtype.is_const] at h; subst h; simp [Dtype.set_const, Dtype.is_const]
  | Pointer i x => simp [Dtype.is_const] at h; subst h; simp [Dtype.set_const, Dtype.is_const]
  | Array i s =>
      simp [Dtype.is_const] at h
      subst h
      simp [Dtype.set_const, Dtype.is_const]
  | Struct n fs x =>
      cases x with
      | true =>
          simp [Dtype.is_const] at h
          subst h
          simp [Dtype.set_const, Dtype.is_const]
      | false =>
          simp only [Dtype.is_const, if_false, Bool.false_eq_true] at h
          cases hbc : (b || c) with
          | true => simp [Dtype.set_const, Dtype.is_const, hbc]
          | false =>
              have hb : b = false := by
                cases b
                · rfl
                · simp at hbc
              subst hb
              simp [Dtype.set_const, Dtype.is_const, h]
  | Function r ps =>
      simp [Dtype.is_const] at h
      subst h
      simp [Dtype.set_const, Dtype.is_const]
  | Typedef n x => simp [Dtype.is_const] at h

theorem lookup_mem_val {env : List (String × Dtype)} {name : String} {t : Dtype}
    (h : env.lookup name = some t) : ∃ p, p ∈ env ∧ p.2 = t := by
  induction env with
  | nil => simp [List.lookup] at h
  | cons q rest ih =>
      rw [List.lookup] at h
      cases hk : (name == q.1) with
      | true =>
          simp only [hk] at h
          exact ⟨q, List.mem_cons_self q rest, by injection h⟩
      | false =>
          simp only [hk] at h
          obtain ⟨p, hp, he⟩ := ih h
          exact ⟨p, List.mem_cons_of_mem q hp, he⟩

/-- Resolution of a list of already-resolved fields returns exactly the
field dtypes. -/
theorem resolveFields_tf {env : List (String × Dtype)} {fs : List (Named Dtype)}
    (h : ∀ f, f ∈ fs → f.inner.resolve_typedefs env = .ok f.inner) :
    resolveFields fs env = .ok (fs.map Named.inner) := by
  induction fs with
  | nil => rfl
  | cons f rest ih =>
      have h1 := h f (List.mem_cons_self f rest)
      have h2 := ih (fun g hg => h g (List.mem_cons_of_mem f hg))
      simp [resolveFields, h1, h2]

theorem resolveParams_tf {env : List (String × Dtype)} {ps : List Dtype}
    (h : ∀ p, p ∈ ps → p.resolve_typedefs env = .ok p) :
    resolveParams ps env = .ok ps := by
  induction ps with
  | nil => rfl
  | cons p rest ih =>
      have h1 := h p (List.mem_cons_self p rest)
      have h2 := ih (fun q hq => h q (List.mem_cons_of_mem p hq))
      simp [resolveParams, h1, h2]

theorem zipWith_named_self (fs : List (Named Dtype)) :
    List.zipWith (fun f d => Named.mk f.name d) fs (fs.map Named.inner) = fs := by
  induction fs with
  | nil => rfl
  | cons f rest ih => cases f; simp [ih]

/-- Core of claim C8: resolution is the identity on typedef-free trees. -/
theorem resolve_typedefs_tf (env : List (String × Dtype)) :
    ∀ d : Dtype, d.typedef_free = true → d.resolve_typedefs env = .ok d := by
  intro d
  induction d using Dtype.nestedInd with
  | h1 c => intro _; rfl
  | h2 w s c => intro _; rfl
  | h3 w c => intro _; rfl
  | h4 i c ih =>
      intro h
      simp only [Dtype.typedef_free] at h
      simp [Dtype.resolve_typedefs, ih h, Dtype.pointer, Dtype.set_const]
  | h5 i s ih =>
      intro h
      simp only [Dtype.typedef_free] at h
      simp [Dtype.resolve_typedefs, ih h]
  | h6 n fs c ih =>
      intro h
      simp only [Dtype.typedef_free] at h
      have hfields : resolveFields fs env = .ok (fs.map Named.inner) :=
        resolveFields_tf (fun f hf => ih f hf (fieldsTypedefFree_mem h hf))
      simp [Dtype.resolve_typedefs, hfields, zipWith_named_self, Dtype.structure_,
        Dtype.set_const]
  | h7 r ps ihr ihp =>
      intro h
      simp only [Dtype.typedef_free, Bool.and_eq_true] at h
      have hps : resolveParams ps env = .ok ps :=
        resolveParams_tf (fun p hp => ihp p hp (paramsTypedefFree_mem h.2 hp))
      simp [Dtype.resolve_typedefs, ihr h.1, hps, Dtype.function]
  | h8 n c => intro h; simp [Dtype.typedef_free] at h

theorem resolveFields_tf_out {env : List (String × Dtype)} {fs : List (Named Dtype)}
    (h : ∀ f, f ∈ fs → ∀ r, f.inner.resolve_typedefs env = .ok r → r.typedef_free = true) :
    ∀ ds, resolveFields fs env = .ok ds → ∀ d, d ∈ ds → d.typedef_free = true := by
  induction fs with
  | nil =>
      intro ds hds d hd
      simp only [resolveFields] at hds
      injection hds with h1
      subst h1
      cases hd
  | cons f rest ih =>
      intro ds hds d hd
      simp only [resolveFields] at hds
      obtain ⟨a, ha, hds⟩ := Res.bind_eq_ok hds
      obtain ⟨as, has, hds⟩ := Res.bind_eq_ok hds
      injection hds with h1
      subst h1
      rcases List.mem_cons.mp hd with h1 | h1
      · subst h1; exact h f (List.mem_cons_self f rest) d ha
      · exact ih (fun g hg => h g (List.mem_cons_of_mem f hg)) as has d h1

theorem resolveParams_tf_out {env : List (String × Dtype)} {ps : List Dtype}
    (h : ∀ p, p ∈ ps → ∀ r, p.resolve_typedefs env = .ok r → r.typedef_free = true) :
    ∀ ds, resolveParams ps env = .ok ds → ∀ d, d ∈ ds → d.typedef_free = true := by
  induction ps with
  | nil =>
      intro ds hds d hd
      simp only [resolveParams] at hds
      injection hds with h1
      subst h1
      cases hd
  | cons p rest ih =>
      intro ds hds d hd
      simp only [resolveParams] at hds
      obtain ⟨a, ha, hds⟩ := Res.bind_eq_ok hds
      obtain ⟨as, has, hds⟩ := Res.bind_eq_ok hds
      injection hds with h1
      subst h1
      rcases List.mem_cons.mp hd with h1 | h1
      · subst h1; exact h p (List.mem_cons_self p rest) d ha
      · exact ih (fun g hg => h g (List.mem_cons_of_mem p hg)) as has d h1

theorem fieldsTypedefFree_zipWith {fs : List (Named Dtype)} {ds : List Dtype}
    (h : ∀ d, d ∈ ds → d.typedef_free = true) :
    fieldsTypedefFree (List.zipWith (fun f d => Named.mk f.name d) fs ds) = true := by
  induction fs generalizing ds with
  | nil => simp [fieldsTypedefFree]
  | cons f rest ih =>
      cases ds with
      | nil => simp [fieldsTypedefFree]
      | cons d drest =>
          simp only [List.zipWith, fieldsTypedefFree, Bool.and_eq_true]
          exact ⟨h d (List.mem_cons_self d drest),
            ih (fun e he => h e (List.mem_cons_of_mem d he))⟩

theorem paramsTypedefFree_of_mem {ps : List Dtype}
    (h : ∀ p, p ∈ ps → p.typedef_free = true) : paramsTypedefFree ps = true := by
  induction ps with
  | nil => rfl
  | cons p rest ih =>
      simp only [paramsTypedefFree, Bool.and_eq_true]
      exact ⟨h p (List.mem_cons_self p rest),
        ih (fun q hq => h q (List.mem_cons_of_mem p hq))⟩

/-- Core of claim C10: with an environment of typedef-free dtypes, every
successful resolution result is typedef-free. -/
theorem resolve_typedefs_tf_out (env : List (String × Dtype))
    (henv : ∀ p, p ∈ env → (p.2).typedef_free = true) :
    ∀ d : Dtype, ∀ r, d.resolve_typedefs env = .ok r → r.typedef_free = true := by
  intro d
  induction d using Dtype.nestedInd with
  | h1 c => intro r h; injection h with h1; subst h1; rfl
  | h2 w s c => intro r h; injection h with h1; subst h1; rfl
  | h3 w c => intro r h; injection h with h1; subst h1; rfl
  | h4 i c ih =>
      intro r h
      simp only [Dtype.resolve_typedefs] at h
      obtain ⟨a, ha, h⟩ := Res.bind_eq_ok h
      injection h with h1
      subst h1
      have := ih a ha
      simpa [Dtype.pointer, Dtype.set_const, Dtype.typedef_free] using this
  | h5 i s ih =>
      intro r h
      simp only [Dtype.resolve_typedefs] at h
      obtain ⟨a, ha, h⟩ := Res.bind_eq_ok h
      injection h with h1
      subst h1
      have := ih a ha
      simpa [Dtype.typedef_free] using this
  | h6 n fs c ih =>
      intro r h
      simp only [Dtype.resolve_typedefs] at h
      obtain ⟨ds, hds, h⟩ := Res.bind_eq_ok h
      by_cases hlen : fs.length = ds.length
      · rw [if_pos hlen] at h
        injection h with h1
        subst h1
        have hmem : ∀ d, d ∈ ds → d.typedef_free = true :=
          resolveFields_tf_out (fun f hf => ih f hf) ds hds
        simp only [Dtype.structure_, Dtype.set_const, Dtype.typedef_free]
        exact fieldsTypedefFree_zipWith hmem
      · rw [if_neg hlen] at h
        cases h
  | h7 rt ps ihr ihp =>
      intro r h
      simp only [Dtype.resolve_typedefs] at h
      obtain ⟨a, ha, h⟩ := Res.bind_eq_ok h
      obtain ⟨as, has, h⟩ := Res.bind_eq_ok h
      injection h with h1
      subst h1
      have h2 : ∀ d, d ∈ as → d.typedef_free = true :=
        resolveParams_tf_out (fun p hp => ihp p hp) as has
      simp only [Dtype.function, Dtype.typedef_free, Bool.and_eq_true]
      exact ⟨ihr a ha, paramsTypedefFree_of_mem h2⟩
  | h8 n c =>
      intro r h
      simp only [Dtype.resolve_typedefs] at h
      cases hl : env.lookup n with
      | none => rw [hl] at h; cases h
      | some D =>
          rw [hl] at h
          obtain ⟨b, hb, h⟩ := Res.bind_eq_ok h
          injection h with h1
          subst h1
          obtain ⟨p, hp, he⟩ := lookup_mem_val hl
          have hD : D.typedef_free = true := he ▸ henv p hp
          rw [typedef_free_set_const]
          exact hD

/-- On typedef-free dtypes, `size_align_of` never reaches its `Typedef`
panic branch. -/
theorem size_align_of_no_typedef_panic :
    ∀ d : Dtype, d.typedef_free = true →
      d.size_align_of ≠ .panic "typedef should be replaced by real dtype" := by
  intro d
  induction d using Dtype.nestedInd with
  | h1 c => intro _; simp [Dtype.size_align_of]
  | h2 w s c => intro _; simp [Dtype.size_align_of]
  | h3 w c => intro _; simp [Dtype.size_align_of]
  | h4 i c ih => intro _; simp [Dtype.size_align_of]
  | h5 i s ih =>
      intro h
      simp only [Dtype.typedef_free] at h
      simp only [Dtype.size_align_of]
      exact Res.bind_ne_panic (ih h) (fun a => by simp)
  | h6 n fs c ih =>
      intro _
      simp only [Dtype.size_align_of]
      intro hcon
      injection hcon with h1
      exact absurd h1 (by decide)
  | h7 r ps ihr ihp => intro _; simp [Dtype.size_align_of]
  | h8 n c => intro h; simp [Dtype.typedef_free] at h

theorem scalar_dtype_ne_empty_panic (t : ast.TypeSpecifier) :
    scalar_dtype t ≠ .panic "BaseDtype is empty" := by
  cases t <;> simp [scalar_dtype]

theorem apply_size_modifiers_ne_empty_panic (d : Dtype) (mods : List ast.TypeSpecifier) :
    apply_size_modifiers d mods ≠ .panic "BaseDtype is empty" := by
  match mods with
  | [] => simp [apply_size_modifiers]
  | [m] => cases m <;> simp [apply_size_modifiers]
  | [m1, m2] => cases m1 <;> cases m2 <;> simp [apply_size_modifiers]
  | m1 :: m2 :: m3 :: rest => simp [apply_size_modifiers]

theorem set_signed_ne_empty_panic (d : Dtype) (b : Bool) :
    d.set_signed b ≠ .panic "BaseDtype is empty" := by
  cases d <;> simp [Dtype.set_signed]

theorem apply_signedness_ne_empty_panic (d : Dtype) (so : Option ast.TypeSpecifier) :
    apply_signedness d so ≠ .panic "BaseDtype is empty" := by
  cases so with
  | none => simp [apply_signedness]
  | some s =>
      cases s <;> cases d <;>
        simp [apply_signedness, Dtype.get_int_width, Dtype.set_signed, Res.bind]

/-! ### The claims -/

/-- Claim C1: the array-size combinator inserts new dimensions innermost —
on an `Array{inner, size: old}` base, `array(base, n)` recurses beneath
`inner` keeping the old outer size; on a non-array, non-function base it
wraps directly as `Array{inner: base, size: n}`; consequently applying sizes
N then M in declarator-chain order to a non-array, non-function T yields
`Array{size:N, inner: Array{size:M, inner:T}}`, and the declarator chain of
`int a[2][3];` derives `Array{size:2, inner: Array{size:3, inner: Int{32}}}`. -/
theorem claim_c1 :
    (∀ (inner : Dtype) (old n : Nat),
        Dtype.array (.Array inner old) n
          = (Dtype.array inner n).map (fun i => .Array i old))
    ∧ (∀ (base : Dtype) (n : Nat),
        base.isArrayVariant = false → base.isFunctionVariant = false →
          Dtype.array base n = .ok (.Array base n))
    ∧ (∀ (t : Dtype) (nn mm : Nat),
        t.isArrayVariant = false → t.isFunctionVariant = false →
          (Dtype.array t nn).bind (fun d => Dtype.array d mm)
            = .ok (.Array (.Array t mm) nn))
    ∧ Dtype.with_ast_declarator 9 Dtype.INT
        (.mk (.Identifier "a")
          [.Array (.mk [] (.VariableExpression (.intConst 2 32 true))),
           .Array (.mk [] (.VariableExpression (.intConst 3 32 true)))])
      = .ok (Named.mk (some "a") (.Array (.Array (.Int 32 true false) 3) 2)) := by
  have hwrap : ∀ (base : Dtype) (n : Nat),
      base.isArrayVariant = false → base.isFunctionVariant = false →
        Dtype.array base n = .ok (.Array base n) := by
    intro base n h1 h2
    cases base <;> simp_all [Dtype.isArrayVariant, Dtype.isFunctionVariant, Dtype.array]
  refine ⟨?_, hwrap, ?_, rfl⟩
  · intro inner old n
    cases h : Dtype.array inner n <;> simp [Dtype.array, h, Res.map, Res.bind]
  · intro t nn mm h1 h2
    rw [hwrap t nn h1 h2]
    simp only [Res.ok_bind]
    simp [Dtype.array, hwrap t mm h1 h2, Res.bind]

/-- Witness for claim C1: its hypotheses hold at `Int{32}` with sizes 2 then
3, giving `Array{size:2, inner: Array{size:3, inner: Int{32}}}`. -/
theorem claim_c1_witness :
    Dtype.array Dtype.INT 2 = .ok (.Array Dtype.INT 2)
    ∧ (Dtype.array Dtype.INT 2).bind (fun d => Dtype.array d 3)
        = .ok (.Array (.Array Dtype.INT 3) 2) :=
  ⟨claim_c1.2.1 Dtype.INT 2 rfl rfl, claim_c1.2.2.1 Dtype.INT 2 3 rfl rfl⟩

/-- Claim C2: on every typedef-free dtype, `is_const` returns the stored
flag for `Unit`/`Int`/`Float`/`Pointer`, `true` for every `Array` and
`Function`, and for a struct the OR of its own flag and the per-field test
in which an array-typed field is tested by its element constness (the
spec-side predicate `isConstSpec`); in particular a struct whose only field
is `Array{inner: Int{const:false}}` is not const, and a struct containing a
field `Pointer{const:true}` is const. -/
theorem claim_c2 :
    (∀ d : Dtype, d.typedef_free = true → d.is_const = .ok (isConstSpec d))
    ∧ (Dtype.Struct none [Named.mk (some "f") (.Array (.Int 32 true false) 3)]
        false).is_const = .ok false
    ∧ (Dtype.Struct none [Named.mk (some "g") (.Pointer (.Int 32 true false) true)]
        false).is_const = .ok true :=
  ⟨fun d h => (is_const_eq_spec d h).1, rfl, rfl⟩

/-- Witness for claim C2: the typedef-freeness hypothesis holds at a struct
with a const-pointer field. -/
theorem claim_c2_witness :
    (Dtype.Struct none [Named.mk (some "g") (.Pointer (.Int 32 true false) true)]
        false).is_const
      = .ok (isConstSpec
          (Dtype.Struct none [Named.mk (some "g") (.Pointer (.Int 32 true false) true)]
            false)) :=
  claim_c2.1 _ rfl

/-- Claim C3: resolving `Typedef{name, const: c}` against an environment —
a name absent from the environment is the "unknown type name" error; a name
mapped to a dtype `D` whose own constness is defined (`D.is_const = ok b`,
which is what "D's own constness" presupposes) succeeds with
`D.set_const (b || c)`, whose constness is exactly `b || c`, the logical OR
of the wrapper's constness and D's own. -/
theorem claim_c3 (name : String) (c : Bool) (env : List (String × Dtype)) :
    (env.lookup name = none →
      (Dtype.Typedef name c).resolve_typedefs env
        = .err (.misc ("unknown type name `" ++ name ++ "`")))
    ∧ (∀ (D : Dtype) (b : Bool), env.lookup name = some D → D.is_const = .ok b →
        (Dtype.Typedef name c).resolve_typedefs env = .ok (D.set_const (b || c))
          ∧ (D.set_const (b || c)).is_const = .ok (b || c)) := by
  constructor
  · intro h
    simp [Dtype.resolve_typedefs, h]
  · intro D b hl hb
    refine ⟨?_, set_const_or_is_const D b c hb⟩
    simp [Dtype.resolve_typedefs, hl, hb, Res.bind]

/-- Witness for claim C3: both branches at concrete inputs — name `"t"`
absent from the empty environment, and `"t"` bound to `Int{32}` with a const
wrapper. -/
theorem claim_c3_witness :
    ( Dtype.Typedef "t" false).resolve_typedefs []
        = .err (.misc ("unknown type name `" ++ "t" ++ "`"))
    ∧ ( Dtype.Typedef "t" true).resolve_typedefs [("t", Dtype.INT)]
        = .ok (Dtype.INT.set_const (false || true)) :=
  ⟨(claim_c3 "t" false []).1 rfl,
    ((claim_c3 "t" true [("t", Dtype.INT)]).2 Dtype.INT false (by rfl) rfl).1⟩

/-- Claim C7: `size_align_of` on typedef-free dtypes where it succeeds —
`Unit` gives `(0,1)`; `Int{w}`/`Float{w}` give `ceil(w/8)` bytes for both
size and alignment; `Pointer` gives the fixed pointer-width constant for
both; `Array{inner, size}` gives size `size * max(inner_size, inner_align)`
with the inner alignment; `Function` gives `(0,1)`; in particular
`Array{size:3, inner: Int{32}}` gives `(12, 4)`. -/
theorem claim_c7 :
    (∀ c, (Dtype.Unit c).size_align_of = .ok (0, 1))
    ∧ (∀ w s c, (Dtype.Int w s c).size_align_of = .ok ((w + 7) / 8, (w + 7) / 8))
    ∧ (∀ w c, (Dtype.Float w c).size_align_of = .ok ((w + 7) / 8, (w + 7) / 8))
    ∧ (∀ i c, (Dtype.Pointer i c).size_align_of
        = .ok (Dtype.SIZE_OF_POINTER, Dtype.SIZE_OF_POINTER))
    ∧ (∀ inner sz si ai, inner.size_align_of = .ok (si, ai) →
        (Dtype.Array inner sz).size_align_of = .ok (sz * max si ai, ai))
    ∧ (∀ r ps, (Dtype.Function r ps).size_align_of = .ok (0, 1))
    ∧ (Dtype.Array (.Int 32 true false) 3).size_align_of = .ok (12, 4) := by
  have harith : ∀ w : Nat, w + Dtype.BITS_OF_BYTE - 1 = w + 7 := by
    intro w
    simp [Dtype.BITS_OF_BYTE]
  refine ⟨fun c => rfl, ?_, ?_, fun i c => rfl, ?_, fun r ps => rfl, rfl⟩
  · intro w s c
    simp [Dtype.size_align_of, harith, Dtype.BITS_OF_BYTE]
  · intro w c
    simp [Dtype.size_align_of, harith, Dtype.BITS_OF_BYTE]
  · intro inner sz si ai h
    simp [Dtype.size_align_of, h, Res.bind]

/-- Witness for claim C7: the array equation instantiated at
`Array{size:3, inner: Int{32}}`. -/
theorem claim_c7_witness :
    (Dtype.Array (.Int 32 true false) 3).size_align_of = .ok (3 * max 4 4, 4) :=
  claim_c7.2.2.2.2.1 (.Int 32 true false) 3 4 4 rfl

/-- Claim C8: on a typedef-free tree, `resolve_typedefs` succeeds with the
tree unchanged for every environment, so applying it twice equals applying
it once (idempotence). -/
theorem claim_c8 :
    (∀ (d : Dtype) (env : List (String × Dtype)), d.typedef_free = true →
        d.resolve_typedefs env = .ok d)
    ∧ (∀ (d : Dtype) (env : List (String × Dtype)), d.typedef_free = true →
        (d.resolve_typedefs env).bind (fun r => r.resolve_typedefs env)
          = d.resolve_typedefs env) := by
  refine ⟨fun d env hd => resolve_typedefs_tf env d hd, ?_⟩
  intro d env hd
  rw [resolve_typedefs_tf env d hd]
  simp [Res.bind, resolve_typedefs_tf env d hd]

/-- Witness for claim C8: a typedef-free struct resolves to itself in a
nonempty environment. -/
theorem claim_c8_witness :
    (Dtype.Struct none [Named.mk (some "x") (.Int 32 true false)]
        false).resolve_typedefs [("t", Dtype.LONG)]
      = .ok (Dtype.Struct none [Named.mk (some "x") (.Int 32 true false)] false) :=
  claim_c8.1 _ [("t", Dtype.LONG)] rfl

/-- Claim C10: with an environment whose stored dtypes are all typedef-free,
every successful `resolve_typedefs` result is typedef-free, so `is_const` is
defined on it and `size_align_of` never reaches its `Typedef` panic branch
(those branches are unreachable on the result). -/
theorem claim_c10 :
    ∀ (env : List (String × Dtype)), (∀ p, p ∈ env → (p.2).typedef_free = true) →
      ∀ (d r : Dtype), d.resolve_typedefs env = .ok r →
        r.typedef_free = true
        ∧ r.is_const = .ok (isConstSpec r)
        ∧ r.size_align_of ≠ .panic "typedef should be replaced by real dtype" := by
  intro env henv d r h
  have htf := resolve_typedefs_tf_out env henv d r h
  exact ⟨htf, (is_const_eq_spec r htf).1, size_align_of_no_typedef_panic r htf⟩

/-- Witness for claim C10: concrete typedef-free environment and a
resolution that replaces the typedef leaf `t` by `Int{64}`. -/
theorem claim_c10_witness :
    Dtype.LONG.typedef_free = true
    ∧ Dtype.LONG.is_const = .ok (isConstSpec Dtype.LONG)
    ∧ Dtype.LONG.size_align_of ≠ .panic "typedef should be replaced by real dtype" :=
  claim_c10 [("t", Dtype.LONG)]
    (by
      intro p hp
      rcases List.mem_singleton.mp hp with h
      subst h
      rfl)
    ( Dtype.Typedef "t" false) Dtype.LONG (by rfl)

/-- Claim C4: the size-modifier step of the accumulator conversion — zero
modifiers keep the scalar; one `short`/`long` modifier replaces the scalar
outright by `Int{16}`/`Int{64}` (for every incoming dtype); two modifiers
succeed only when both are `long`, giving `Int{64}`, and are an error
otherwise; three or more are always an error; closed conversion instances
show the behavior through `TryFrom<BaseDtype>` itself. -/
theorem claim_c4 :
    (∀ d : Dtype, apply_size_modifiers d [] = .ok d)
    ∧ (∀ d : Dtype, apply_size_modifiers d [.Short] = .ok (.Int 16 true false))
    ∧ (∀ d : Dtype, apply_size_modifiers d [.Long] = .ok (.Int 64 true false))
    ∧ (∀ d : Dtype, apply_size_modifiers d [.Long, .Long] = .ok (.Int 64 true false))
    ∧ (∀ (d : Dtype) (m1 m2 : ast.TypeSpecifier), ¬(m1 = .Long ∧ m2 = .Long) →
        apply_size_modifiers d [m1, m2]
          = .err (.misc "two or more size modifiers in declaration specifiers"))
    ∧ (∀ (d : Dtype) (m1 m2 m3 : ast.TypeSpecifier) (rest : List ast.TypeSpecifier),
        apply_size_modifiers d (m1 :: m2 :: m3 :: rest)
          = .err (.misc "two or more size modifiers in declaration specifiers"))
    ∧ Dtype.try_from_base 1 ⟨none, [.Short], none, none, none, false, false⟩
        = .ok (.Int 16 true false)
    ∧ Dtype.try_from_base 1 ⟨some .Char, [.Long], none, none, none, false, false⟩
        = .ok (.Int 64 true false)
    ∧ Dtype.try_from_base 1 ⟨some .Int, [.Long, .Long], none, none, none, false, false⟩
        = .ok (.Int 64 true false) := by
  refine ⟨fun d => rfl, fun d => rfl, fun d => rfl, fun d => rfl, ?_, ?_, rfl, rfl, rfl⟩
  · intro d m1 m2 h
    cases m1 <;> cases m2 <;> simp_all [apply_size_modifiers]
  · intro d m1 m2 m3 rest
    rfl

/-- Witness for claim C4: the error cases at concrete modifier lists
`[short, long]` and `[long, long, long]`. -/
theorem claim_c4_witness :
    apply_size_modifiers Dtype.INT [ast.TypeSpecifier.Short, ast.TypeSpecifier.Long]
      = .err (.misc "two or more size modifiers in declaration specifiers")
    ∧ apply_size_modifiers Dtype.INT
        [ast.TypeSpecifier.Long, ast.TypeSpecifier.Long, ast.TypeSpecifier.Long]
      = .err (.misc "two or more size modifiers in declaration specifiers") :=
  ⟨claim_c4.2.2.2.2.1 Dtype.INT .Short .Long (by simp),
    claim_c4.2.2.2.2.2.1 Dtype.INT .Long .Long .Long []⟩

/-- Claim C5: array-to-pointer parameter decay — for a parameter declaration
with a declarator, whenever the dtype resolved from specifiers plus
declarator is `Array{inner: E, ...}`, `TryFrom<&ast::ParameterDeclaration>`
returns `Pointer{inner: E}`; in particular a parameter `int p[10]` resolves
to `Pointer{inner: Int{32}}`, not an array. -/
theorem claim_c5 :
    (∀ (fuel : Nat) (pd : ast.ParameterDeclaration) (decl : ast.Declarator)
        (spec : BaseDtype) (base : Dtype) (nd : Named Dtype) (E : Dtype) (sz : Nat),
      pd.declarator = some decl →
      BaseDtype.default.apply_declaration_specifiers pd.specifiers = .ok spec →
      Dtype.try_from_base fuel spec = .ok base →
      Dtype.with_ast_declarator fuel base decl = .ok nd →
      nd.inner = .Array E sz →
      Dtype.try_from_param (fuel + 1) pd = .ok (Dtype.pointer E))
    ∧ Dtype.try_from_param 9
        (.mk [.TypeSpecifier .Int]
          (some (.mk (.Identifier "p")
            [.Array (.mk [] (.VariableExpression (.intConst 10 32 true)))])))
      = .ok (.Pointer (.Int 32 true false) false) := by
  refine ⟨?_, rfl⟩
  intro fuel pd decl spec base nd E sz h1 h2 h3 h4 h5
  simp only [Dtype.try_from_param, h2, Res.ok_bind, h3, h1, h4, h5,
    Dtype.get_array_inner]

/-- Witness for claim C5: the general decay statement instantiated at the
parameter `int p[10]`. -/
theorem claim_c5_witness :
    Dtype.try_from_param 9
      (.mk [.TypeSpecifier .Int]
        (some (.mk (.Identifier "p")
          [.Array (.mk [] (.VariableExpression (.intConst 10 32 true)))])))
      = .ok (Dtype.pointer (.Int 32 true false)) :=
  claim_c5.1 8
    (.mk [.TypeSpecifier .Int]
      (some (.mk (.Identifier "p")
        [.Array (.mk [] (.VariableExpression (.intConst 10 32 true)))])))
    (.mk (.Identifier "p") [.Array (.mk [] (.VariableExpression (.intConst 10 32 true)))])
    ⟨some .Int, [], none, none, none, false, false⟩
    (.Int 32 true false)
    (Named.mk (some "p") (.Array (.Int 32 true false) 10))
    (.Int 32 true false) 10
    rfl rfl rfl (by rfl) rfl

/-- Counterexample to claim C6 as stated: a parameter list containing `void`
together with another parameter — `f(void, int)` — is NOT an error in the
code: the function layer succeeds, keeping the `void` (`Unit`) in the
parameter list. -/
theorem claim_c6_counterexample :
    with_ast_derived 9 Dtype.INT
      [.Function (.mk [.mk [.TypeSpecifier .Void] none, .mk [.TypeSpecifier .Int] none])]
    = .ok (.Function (.Int 32 true false) [.Unit false, .Int 32 true false]) := rfl

/-- Claim C6 (amended): when the resolved parameter list is exactly one
element equal to `Unit` (a lone `void`), it is dropped, giving
`Function{ret, params: []}`; but a resolved list of two or more parameters
(such as `f(void, int)`) is not an error: it is kept unchanged, `void`
included.  The closed conjunct is `f(void)` over return type `Int{32}`. -/
theorem claim_c6 :
    (∀ (fuel : Nat) (self : Dtype) (fd : ast.FunctionDeclarator) (ps : List Dtype),
      params_dtypes (fuel + 1) fd.parameters = .ok ps →
        (ps = [.Unit false] →
          with_ast_derived (fuel + 2) self [.Function fd] = .ok (.Function self []))
        ∧ (∀ p q rest, ps = p :: q :: rest →
            with_ast_derived (fuel + 2) self [.Function fd] = .ok (.Function self ps)))
    ∧ with_ast_derived 9 Dtype.INT [.Function (.mk [.mk [.TypeSpecifier .Void] none])]
        = .ok (.Function (.Int 32 true false) []) := by
  refine ⟨?_, rfl⟩
  intro fuel self fd ps h
  constructor
  · intro hps
    subst hps
    have hdrop : dropLoneVoid [Dtype.Unit false] = [] := rfl
    simp only [with_ast_derived, h, Res.ok_bind, hdrop, Dtype.function]
  · intro p q rest hps
    subst hps
    have hdrop : dropLoneVoid (p :: q :: rest) = p :: q :: rest := by
      unfold dropLoneVoid
      split
      · next heq => exact absurd heq (by simp)
      · rfl
    simp only [with_ast_derived, h, Res.ok_bind, hdrop, Dtype.function]

/-- Witness for claim C6: the lone-`void` drop at the concrete declarator
`f(void)`. -/
theorem claim_c6_witness :
    with_ast_derived 9 Dtype.INT [.Function (.mk [.mk [.TypeSpecifier .Void] none])]
      = .ok (.Function Dtype.INT []) :=
  (claim_c6.1 7 Dtype.INT (.mk [.mk [.TypeSpecifier .Void] none]) [.Unit false]
    (by rfl)).1 rfl

/-- Counterexample to claim C9 as stated: a NON-empty accumulator (it holds
a struct specifier) whose struct has a field with an empty
specifier-qualifier list.  The nested field accumulator built from that
empty list is empty, and its conversion triggers the very
"BaseDtype is empty" assertion — so converting a non-empty accumulator CAN
trigger the empty-accumulator assertion. -/
theorem claim_c9_counterexample :
    (BaseDtype.mk none [] none none
        (some (.mk .Struct none (some [.Field (.mk [] [])]))) false false).isEmpty = false
    ∧ Dtype.try_from_base 9
        (BaseDtype.mk none [] none none
          (some (.mk .Struct none (some [.Field (.mk [] [])]))) false false)
      = .panic "BaseDtype is empty" := ⟨rfl, rfl⟩

/-- Claim C9 (amended): converting an empty accumulator is the
"BaseDtype is empty" assertion failure — never a returned `DtypeError` and
never a silently returned dtype (in particular not the default `Int{32}`);
a non-empty accumulator without a struct specifier never triggers that
assertion; with a struct specifier, the assertion can still fire on a
nested struct-field accumulator that is itself empty (see the
counterexample). -/
theorem claim_c9 :
    (∀ (fuel : Nat) (spec : BaseDtype), spec.isEmpty = true →
      Dtype.try_from_base (fuel + 1) spec = .panic "BaseDtype is empty")
    ∧ (∀ (fuel : Nat) (spec : BaseDtype) (e : DtypeError), spec.isEmpty = true →
      Dtype.try_from_base (fuel + 1) spec ≠ .err e)
    ∧ (∀ (fuel : Nat) (spec : BaseDtype) (d : Dtype), spec.isEmpty = true →
      Dtype.try_from_base (fuel + 1) spec ≠ .ok d)
    ∧ (∀ (fuel : Nat) (spec : BaseDtype), spec.isEmpty = false → spec.struct_type = none →
      Dtype.try_from_base (fuel + 1) spec ≠ .panic "BaseDtype is empty") := by
  have hempty : ∀ (fuel : Nat) (spec : BaseDtype), spec.isEmpty = true →
      Dtype.try_from_base (fuel + 1) spec = .panic "BaseDtype is empty" := by
    intro fuel spec h
    simp [Dtype.try_from_base, h]
  refine ⟨hempty, ?_, ?_, ?_⟩
  · intro fuel spec e h
    rw [hempty fuel spec h]
    simp
  · intro fuel spec d h
    rw [hempty fuel spec h]
    simp
  · intro fuel spec h1 h2
    simp only [Dtype.try_from_base, h1, Bool.false_eq_true, if_false]
    split
    · split <;> simp
    · simp only [h2]
      apply Res.bind_ne_panic
      · cases hs : spec.scalar with
        | some t => exact scalar_dtype_ne_empty_panic t
        | none => simp
      · intro a
        apply Res.bind_ne_panic
        · exact apply_size_modifiers_ne_empty_panic a spec.size_modifiers
        · intro b
          apply Res.bind_ne_panic
          · exact apply_signedness_ne_empty_panic b spec.signed_option
          · intro c2
            simp

/-- Witness for claim C9: the empty accumulator asserts; the accumulator of
a bare `int` does not. -/
theorem claim_c9_witness :
    Dtype.try_from_base 1 BaseDtype.default = .panic "BaseDtype is empty"
    ∧ Dtype.try_from_base 1 ⟨some .Int, [], none, none, none, false, false⟩
        ≠ .panic "BaseDtype is empty" :=
  ⟨claim_c9.1 0 BaseDtype.default rfl,
    claim_c9.2.2.2 0 ⟨some .Int, [], none, none, none, false, false⟩ rfl rfl⟩
